import Mathlib

/-!
Shallow embedding of the arena fight simulation (files `Fighter.ts`,
`Base.ts` / `Heavy.ts` / `Archer.ts`, and the physics section of
`HelloWorld.vue`).

Numbers are modelled as exact rationals.  The source calls `Math.sqrt`
to obtain Euclidean distances; square roots of rationals are not
rational, so every function that uses the *value* of a distance (not
just a comparison) takes the distance as an explicit argument `dist`,
and theorems constrain it by `0 ≤ dist` and `dist ^ 2 = dx ^ 2 + dy ^ 2`.
Comparisons of a distance against a positive bound `r` are embedded as
the equivalent comparison of squares (`Real.sqrt s < r ↔ s < r ^ 2` for
`0 < r`; all radii in the program are the positive constants 28, 30, 40
and 50).  `Math.cos`/`Math.sin` of an angle are likewise supplied as
explicit direction components `(c, s)` where they occur.
-/

/-- The three fighter variants (`BaseFighter`, `HeavyFighter`,
`ArcherFighter`). -/
inductive Variant where
  | base
  | heavy
  | archer
deriving DecidableEq, Repr

/-- The `Bullet` interface of `Archer.ts`. -/
structure Bullet where
  x : ℚ
  y : ℚ
  vx : ℚ
  vy : ℚ
  damage : ℚ
  active : Bool
deriving DecidableEq, Repr

/-- Fighter state: the fields of the abstract `Fighter` class together
with the variant tag and the variant-specific fields (Heavy: rotating
square and shield; Base: regeneration timer; Archer: bullets, aim angle
and shoot cooldown).  Fields of variants that do not apply stay at their
defaults. -/
structure Fighter where
  variant : Variant
  x : ℚ
  y : ℚ
  vx : ℚ := 0
  vy : ℚ := 0
  hp : ℚ
  maxHp : ℚ
  strength : ℚ
  radius : ℚ
  dealsBodyDamage : Bool := true
  squareRotation : ℚ := 0
  shieldCharge : ℚ := 0
  hasShield : Bool := false
  regenTimer : ℚ := 0
  bullets : List Bullet := []
  shootAngle : ℚ := 0
  shootCooldown : ℚ := 0
deriving DecidableEq, Repr

/-- `speedMultiplier`: 1.0 for Base, 0.7 for Heavy, 1.2 for Archer. -/
def Variant.speedMultiplier : Variant → ℚ
  | .base => 1
  | .heavy => 7 / 10
  | .archer => 6 / 5

/-- `strengthGainRate`: 1 for Base, 2 for Heavy, 1 for Archer. -/
def Variant.strengthGainRate : Variant → ℚ
  | .base => 1
  | .heavy => 2
  | .archer => 1

/-- Archer constant `bulletSpeed = 8`. -/
def bulletSpeed : ℚ := 8

/-- Archer constant `bulletRadius = 5`. -/
def bulletRadius : ℚ := 5

/-- Archer constant `shootCooldownMax = 30`. -/
def shootCooldownMax : ℚ := 30

/-- Archer constant `shootRotationSpeed = 0.08`. -/
def shootRotationSpeed : ℚ := 8 / 100

/-- `new BaseFighter(config)`: hp 100/100, strength 1, radius 30,
deals body damage. -/
def mkBaseFighter (x y : ℚ) : Fighter :=
  { variant := .base, x := x, y := y, hp := 100, maxHp := 100
    strength := 1, radius := 30 }

/-- `new HeavyFighter(config)`: hp 250/250, strength 2, radius 50,
no body damage. -/
def mkHeavyFighter (x y : ℚ) : Fighter :=
  { variant := .heavy, x := x, y := y, hp := 250, maxHp := 250
    strength := 2, radius := 50, dealsBodyDamage := false }

/-- `new ArcherFighter(config)`: hp 150/150, strength 3, radius 28,
no body damage. -/
def mkArcherFighter (x y : ℚ) : Fighter :=
  { variant := .archer, x := x, y := y, hp := 150, maxHp := 150
    strength := 3, radius := 28, dealsBodyDamage := false }

/-- `Fighter.applyGravity`: add the unit vector toward the center scaled
by `gravityStrength × speedMultiplier` to the velocity, skipped when the
distance is zero.  `dist` stands for `Math.sqrt(dx*dx + dy*dy)`. -/
def Fighter.applyGravity (f : Fighter) (cx cy g dist : ℚ) : Fighter :=
  if 0 < dist then
    { f with
      vx := f.vx + (cx - f.x) / dist * g * f.variant.speedMultiplier
      vy := f.vy + (cy - f.y) / dist * g * f.variant.speedMultiplier }
  else f

/-- `Fighter.applyDamping`: multiply velocity by the damping factor. -/
def Fighter.applyDamping (f : Fighter) (damping : ℚ) : Fighter :=
  { f with vx := f.vx * damping, vy := f.vy * damping }

/-- `Fighter.updatePosition`: add velocity to position. -/
def Fighter.updatePosition (f : Fighter) : Fighter :=
  { f with x := f.x + f.vx, y := f.y + f.vy }

/-- `Fighter.isInCenterZone`: the source tests
`Math.sqrt(dx*dx + dy*dy) < this.radius`; for the positive radii used by
every variant this is equivalent to the squared comparison used here. -/
def Fighter.isInCenterZone (f : Fighter) (cx cy : ℚ) : Bool :=
  decide ((f.x - cx) ^ 2 + (f.y - cy) ^ 2 < f.radius ^ 2)

/-- `Fighter.gainStrength`: add the variant's strength gain rate. -/
def Fighter.gainStrength (f : Fighter) : Fighter :=
  { f with strength := f.strength + f.variant.strengthGainRate }

/-- `Fighter.takeDamage` (base class): `hp = Math.max(0, hp - damage)`. -/
def Fighter.takeDamageBase (f : Fighter) (damage : ℚ) : Fighter :=
  { f with hp := max 0 (f.hp - damage) }

/-- `HeavyFighter.takeDamage`: if the shield is armed, halve the damage
(`Math.floor(damage * 0.5)`), disarm, and reset the charge; then clamp
hp at zero as in the base class. -/
def Fighter.takeDamageHeavy (f : Fighter) (damage : ℚ) : Fighter :=
  if f.hasShield then
    { f with
      hp := max 0 (f.hp - ((⌊damage * (1 / 2 : ℚ)⌋ : ℤ) : ℚ))
      hasShield := false
      shieldCharge := 0 }
  else
    { f with hp := max 0 (f.hp - damage) }

/-- Dynamic dispatch of `takeDamage`: Heavy overrides it, the other
variants use the base-class implementation. -/
def Fighter.takeDamage (f : Fighter) (damage : ℚ) : Fighter :=
  match f.variant with
  | .heavy => f.takeDamageHeavy damage
  | _ => f.takeDamageBase damage

/-- `Fighter.isAlive`: `hp > 0`. -/
def Fighter.isAlive (f : Fighter) : Bool :=
  decide (0 < f.hp)

/-- `BaseFighter.passiveAbility`: increment the regeneration timer; when
hp is below 50% of max, the timer has reached 120 and hp is nonzero,
heal 1 hp (capped at maxHp) and reset the timer. -/
def Fighter.basePassive (f : Fighter) : Fighter :=
  let f := { f with regenTimer := f.regenTimer + 1 }
  if f.hp < f.maxHp * (1 / 2) ∧ 120 ≤ f.regenTimer ∧ f.hp ≠ 0 then
    { f with hp := min f.maxHp (f.hp + 1), regenTimer := 0 }
  else f

/-- `HeavyFighter.passiveAbility`: advance the square rotation by 0.05;
while in the center zone increment the shield charge, and at charge ≥ 180
with the shield not yet armed, arm it and reset the charge. -/
def Fighter.heavyPassive (f : Fighter) (cx cy : ℚ) : Fighter :=
  let f := { f with squareRotation := f.squareRotation + 5 / 100 }
  if f.isInCenterZone cx cy then
    let f := { f with shieldCharge := f.shieldCharge + 1 }
    if 180 ≤ f.shieldCharge ∧ f.hasShield = false then
      { f with hasShield := true, shieldCharge := 0 }
    else f
  else f

/-- `ArcherFighter.shootBullet`: push a bullet spawned on the rim in the
aimed direction; its velocity is the direction scaled by `bulletSpeed`
and a strength multiplier (0.24 on x, 0.25 on y in the source), plus the
owner's velocity; its damage is the owner's current strength.  `c` and
`s` stand for `Math.cos(angle)` and `Math.sin(angle)`. -/
def Fighter.shootBullet (f : Fighter) (c s : ℚ) : Fighter :=
  { f with
    bullets := f.bullets ++
      [{ x := f.x + c * f.radius
         y := f.y + s * f.radius
         vx := c * bulletSpeed * (1 + f.strength * (24 / 100)) + f.vx
         vy := s * bulletSpeed * (1 + f.strength * (25 / 100)) + f.vy
         damage := f.strength
         active := true }] }

/-- One bullet step of `ArcherFighter.updateBullets`: an active bullet
moves by its velocity and is deactivated when farther than 500 from the
archer (the source compares `Math.sqrt` of the squared distance with
500; equivalent to the squared comparison since both are positive). -/
def stepBullet (fx fy : ℚ) (b : Bullet) : Bullet :=
  if b.active then
    let b := { b with x := b.x + b.vx, y := b.y + b.vy }
    if 500 ^ 2 < (b.x - fx) ^ 2 + (b.y - fy) ^ 2 then
      { b with active := false }
    else b
  else b

/-- `ArcherFighter.updateBullets`: advance every active bullet, then
drop the inactive ones. -/
def Fighter.updateBullets (f : Fighter) : Fighter :=
  { f with bullets := (f.bullets.map (stepBullet f.x f.y)).filter (·.active) }

/-- `ArcherFighter.passiveAbility`: rotate the aim angle; if the
cooldown is positive decrement it, otherwise shoot along the current
angle and reset the cooldown to `shootCooldownMax - strength * 1.5`
(no clamping in the source); finally update bullets.  `c`, `s` stand for
the cosine and sine of the updated aim angle. -/
def Fighter.archerPassive (f : Fighter) (c s : ℚ) : Fighter :=
  let f := { f with shootAngle := f.shootAngle + shootRotationSpeed }
  let f :=
    if 0 < f.shootCooldown then
      { f with shootCooldown := f.shootCooldown - 1 }
    else
      let f := f.shootBullet c s
      { f with shootCooldown := shootCooldownMax - f.strength * (3 / 2) }
  f.updateBullets

/-- `BaseFighter.useSpecialAbility`: dash toward the center when farther
than 200 from it.  `dist` stands for the `Math.sqrt` distance to the
center. -/
def Fighter.baseSpecial (f : Fighter) (cx cy dist : ℚ) : Fighter :=
  if 200 < dist then
    { f with
      vx := f.vx + (cx - f.x) / dist * 2
      vy := f.vy + (cy - f.y) / dist * 2 }
  else f

/-- `HeavyFighter.useSpecialAbility`: ground slam away from the center
when within 100 of it (and not exactly at it). -/
def Fighter.heavySpecial (f : Fighter) (cx cy dist : ℚ) : Fighter :=
  if dist < 100 ∧ 0 < dist then
    { f with
      vx := f.vx + (f.x - cx) / dist * 5
      vy := f.vy + (f.y - cy) / dist * 5 }
  else f

/-- `ArcherFighter.useSpecialAbility`: shoot 8 bullets in a circle at
angles `2πi/8`.  The cosine/sine pairs of those angles are irrational;
they are supplied as the list `dirs`. -/
def Fighter.archerSpecial (f : Fighter) (dirs : List (ℚ × ℚ)) : Fighter :=
  dirs.foldl (fun g p => g.shootBullet p.1 p.2) f

/-- Dynamic dispatch of `passiveAbility`. -/
def Fighter.passiveAbility (f : Fighter) (cx cy c s : ℚ) : Fighter :=
  match f.variant with
  | .base => f.basePassive
  | .heavy => f.heavyPassive cx cy
  | .archer => f.archerPassive c s

/-- Dynamic dispatch of `useSpecialAbility`. -/
def Fighter.useSpecialAbility (f : Fighter) (cx cy dist : ℚ)
    (dirs : List (ℚ × ℚ)) : Fighter :=
  match f.variant with
  | .base => f.baseSpecial cx cy dist
  | .heavy => f.heavySpecial cx cy dist
  | .archer => f.archerSpecial dirs

/-- Whether one bullet hits the fighter `other`
(`dist < bulletRadius + other.radius` in the source, embedded as the
equivalent squared comparison for the positive radii in use). -/
def bulletHits (other : Fighter) (b : Bullet) : Bool :=
  b.active && decide
    ((b.x - other.x) ^ 2 + (b.y - other.y) ^ 2 < (bulletRadius + other.radius) ^ 2)

/-- `ArcherFighter.checkBulletCollision`: deactivate every active bullet
that overlaps `other` and report whether any did. -/
def Fighter.checkBulletCollision (f other : Fighter) : Fighter × Bool :=
  ({ f with
      bullets := f.bullets.map fun b =>
        if bulletHits other b then { b with active := false } else b },
    f.bullets.any (bulletHits other))

/-- `ArcherFighter.getBulletDamage`: the archer's current strength. -/
def Fighter.getBulletDamage (f : Fighter) : ℚ :=
  f.strength

/-- A wall obstacle (`Wall` in `HelloWorld.vue`). -/
structure Wall where
  x : ℚ
  y : ℚ
  radius : ℚ
deriving DecidableEq, Repr

/-- `GRAVITY_STRENGTH = 0.5`. -/
def GRAVITY_STRENGTH : ℚ := 1 / 2

/-- `DAMPING = 0.98`. -/
def DAMPING : ℚ := 98 / 100

/-- `BALL_COLLISION_DAMPING = 1.5`. -/
def BALL_COLLISION_DAMPING : ℚ := 3 / 2

/-- `WALL_COLLISION_DAMPING = 0.6`. -/
def WALL_COLLISION_DAMPING : ℚ := 3 / 5

/-- `checkCollisionWithWall` from `HelloWorld.vue`: when the fighter
overlaps the wall at a strictly positive center distance, push it out by
the overlap along the wall-to-fighter normal, and if its velocity points
into the wall, remove the normal component scaled by
`WALL_COLLISION_DAMPING`.  `dist` stands for
`Math.sqrt(dx*dx + dy*dy)`. -/
def checkCollisionWithWall (f : Fighter) (w : Wall) (dist : ℚ) : Fighter :=
  let dx := f.x - w.x
  let dy := f.y - w.y
  let minDist := f.radius + w.radius
  if dist < minDist ∧ 0 < dist then
    let nx := dx / dist
    let ny := dy / dist
    let overlap := minDist - dist
    let f := { f with x := f.x + nx * overlap, y := f.y + ny * overlap }
    let dotProduct := f.vx * nx + f.vy * ny
    if dotProduct < 0 then
      { f with
        vx := f.vx - nx * dotProduct * WALL_COLLISION_DAMPING
        vy := f.vy - ny * dotProduct * WALL_COLLISION_DAMPING }
    else f
  else f

/-- Per-tick inputs to the collision section of `updatePhysics` that the
embedding cannot compute itself: the outcomes of the two
`checkSquareCollisionWithFighter` tests (the rotated-square geometry
uses `Math.cos`/`Math.sin` of the accumulated rotation), the
`Math.sqrt` center distance of the two fighters, and the four
`Math.random()` draws of the impulse lines. -/
structure ContactInput where
  squareTest1 : Bool
  squareTest2 : Bool
  dist : ℚ
  r1 : ℚ
  r2 : ℚ
  r3 : ℚ
  r4 : ℚ
deriving DecidableEq, Repr

/-- The mutable state threaded through the collision section of
`updatePhysics`: the two fighters and the module-level
`ballsInCollision` flag. -/
structure ContactState where
  f1 : Fighter
  f2 : Fighter
  flag : Bool
deriving DecidableEq, Repr

/-- The melee-hazard block of `updatePhysics`: each Heavy fighter whose
square test succeeded damages the opponent, but only while the shared
`ballsInCollision` flag is clear; returns the updated fighters and the
`squareHit` flag. -/
def squareHitsPhase (st : ContactState) (inp : ContactInput) : (Fighter × Fighter) × Bool :=
  let sq1 : Bool := st.f1.variant = .heavy && inp.squareTest1 && !st.flag
  let f2 := if sq1 then st.f2.takeDamage st.f1.strength else st.f2
  let sq2 : Bool := f2.variant = .heavy && inp.squareTest2 && !st.flag
  let f1 := if sq2 then st.f1.takeDamage f2.strength else st.f1
  ((f1, f2), sq1 || sq2)

/-- One projectile block of `updatePhysics`: when `a` is an Archer, run
its bullet-collision check against `b` and, on a hit, apply
`getBulletDamage()` (the archer's current strength) to `b`. -/
def bulletHitPhase (a b : Fighter) : (Fighter × Fighter) × Bool :=
  if a.variant = .archer then
    let p := a.checkBulletCollision b
    ((p.1, if p.2 then b.takeDamage p.1.getBulletDamage else b), p.2)
  else ((a, b), false)

/-- The body-collision block of `updatePhysics`: when the circles
overlap at positive distance, apply body damage gated by the shared
flag, separate the fighters 50/50 along the normal, apply the
randomized impulse, and set the flag; otherwise keep the flag only if a
square or bullet hit occurred this tick. -/
def bodyPhase (f1 f2 : Fighter) (flag squareHit bulletHit : Bool)
    (dist minDist r1 r2 r3 r4 : ℚ) : ContactState :=
  if dist < minDist ∧ 0 < dist then
    let f2 :=
      if !flag && !squareHit && !bulletHit && f1.dealsBodyDamage then
        f2.takeDamage f1.strength
      else f2
    let f1 :=
      if !flag && !squareHit && !bulletHit && f2.dealsBodyDamage then
        f1.takeDamage f2.strength
      else f1
    let dx := f2.x - f1.x
    let dy := f2.y - f1.y
    let nx := dx / dist
    let ny := dy / dist
    let overlap := minDist - dist
    let f1 := { f1 with x := f1.x - nx * overlap * (1 / 2), y := f1.y - ny * overlap * (1 / 2) }
    let f2 := { f2 with x := f2.x + nx * overlap * (1 / 2), y := f2.y + ny * overlap * (1 / 2) }
    let dvx := f2.vx - f1.vx
    let dvy := f2.vy - f1.vy
    let dotProduct := dvx * nx + dvy * ny
    let f1 := { f1 with
      vx := f1.vx + nx * dotProduct * BALL_COLLISION_DAMPING * 2 * r1
      vy := f1.vy + ny * dotProduct * BALL_COLLISION_DAMPING * 2 * r2 }
    let f2 := { f2 with
      vx := f2.vx - nx * dotProduct * BALL_COLLISION_DAMPING * 2 * r3
      vy := f2.vy - ny * dotProduct * BALL_COLLISION_DAMPING * 2 * r4 }
    { f1 := f1, f2 := f2, flag := true }
  else if squareHit || bulletHit then
    { f1 := f1, f2 := f2, flag := true }
  else
    { f1 := f1, f2 := f2, flag := false }

/-- The collision section of `updatePhysics` (square hit, bullet hit,
body-to-body damage gated by the shared `ballsInCollision` flag,
separation and randomized impulse), transcribed in source order.  The
distance and the radius sum are computed before the hit blocks, as in
the source. -/
def contactPhase (st : ContactState) (inp : ContactInput) : ContactState :=
  let minDist := st.f1.radius + st.f2.radius
  let q := squareHitsPhase st inp
  let b1 := bulletHitPhase q.1.1 q.1.2
  let b2 := bulletHitPhase b1.1.2 b1.1.1
  bodyPhase b2.1.2 b2.1.1 st.flag q.2 (b1.2 || b2.2)
    inp.dist minDist inp.r1 inp.r2 inp.r3 inp.r4

/-- Iterated collision phases (consecutive ticks of the collision
section, with per-tick oracle inputs). -/
def contactRun (st : ContactState) (inps : List ContactInput) : ContactState :=
  inps.foldl contactPhase st

/-- One simulation operation on a single fighter, with the oracle data
(square-root distances, direction cosines) each operation needs. -/
inductive Op where
  | gravity (cx cy g dist : ℚ)
  | damping (d : ℚ)
  | move
  | passive (cx cy c s : ℚ)
  | special (cx cy dist : ℚ) (dirs : List (ℚ × ℚ))
  | damage (d : ℚ)
  | gainStr

/-- Apply one operation to a fighter. -/
def applyOp (f : Fighter) : Op → Fighter
  | .gravity cx cy g dist => f.applyGravity cx cy g dist
  | .damping d => f.applyDamping d
  | .move => f.updatePosition
  | .passive cx cy c s => f.passiveAbility cx cy c s
  | .special cx cy dist dirs => f.useSpecialAbility cx cy dist dirs
  | .damage d => f.takeDamage d
  | .gainStr => f.gainStrength

/-- Run a sequence of operations. -/
def runOps (f : Fighter) (ops : List Op) : Fighter :=
  ops.foldl applyOp f

/-- An operation's damage argument, when it has one, is non-negative. -/
def Op.nonnegDamage : Op → Prop
  | .damage d => 0 ≤ d
  | _ => True

instance : DecidablePred Op.nonnegDamage := by
  intro op
  cases op <;> simp [Op.nonnegDamage] <;> infer_instance

/-- The hp invariant: `0 ≤ hp ≤ maxHp`. -/
def hpInv (f : Fighter) : Prop :=
  0 ≤ f.hp ∧ f.hp ≤ f.maxHp

instance : DecidablePred hpInv := by
  intro f
  unfold hpInv
  infer_instance
/-- Gravity does not touch hp or maxHp. -/
theorem applyGravity_hp (f : Fighter) (cx cy g dist : ℚ) :
    (f.applyGravity cx cy g dist).hp = f.hp ∧
    (f.applyGravity cx cy g dist).maxHp = f.maxHp := by
  unfold Fighter.applyGravity
  split <;> exact ⟨rfl, rfl⟩

theorem basePassive_hp (f : Fighter) (h : hpInv f) : hpInv f.basePassive := by
  obtain ⟨h0, h1⟩ := h
  unfold Fighter.basePassive
  dsimp only
  split_ifs
  · refine ⟨?_, ?_⟩
    · dsimp only [hpInv]
      refine le_min (by linarith) (by linarith)
    · exact min_le_left _ _
  · exact ⟨h0, h1⟩

theorem heavyPassive_hp (f : Fighter) (cx cy : ℚ) :
    (f.heavyPassive cx cy).hp = f.hp ∧ (f.heavyPassive cx cy).maxHp = f.maxHp := by
  unfold Fighter.heavyPassive
  dsimp only
  split_ifs <;> exact ⟨rfl, rfl⟩

theorem archerPassive_hp (f : Fighter) (c s : ℚ) :
    (f.archerPassive c s).hp = f.hp ∧ (f.archerPassive c s).maxHp = f.maxHp := by
  unfold Fighter.archerPassive Fighter.updateBullets Fighter.shootBullet
  dsimp only
  split_ifs <;> exact ⟨rfl, rfl⟩

theorem takeDamageBase_hp (f : Fighter) (d : ℚ) (h : hpInv f) (hd : 0 ≤ d) :
    hpInv (f.takeDamageBase d) := by
  obtain ⟨h0, h1⟩ := h
  unfold Fighter.takeDamageBase hpInv
  dsimp only
  exact ⟨le_max_left _ _, max_le (by linarith) (by linarith)⟩

theorem takeDamageHeavy_hp (f : Fighter) (d : ℚ) (h : hpInv f) (hd : 0 ≤ d) :
    hpInv (f.takeDamageHeavy d) := by
  obtain ⟨h0, h1⟩ := h
  have hfl : (0 : ℚ) ≤ ((⌊d * (1 / 2 : ℚ)⌋ : ℤ) : ℚ) := by
    have h2 : (0 : ℤ) ≤ ⌊d * (1 / 2 : ℚ)⌋ := Int.floor_nonneg.mpr (by linarith)
    exact_mod_cast h2
  unfold Fighter.takeDamageHeavy hpInv
  split <;> dsimp only <;>
    exact ⟨le_max_left _ _, max_le (by linarith) (by linarith)⟩

theorem takeDamage_hp (f : Fighter) (d : ℚ) (h : hpInv f) (hd : 0 ≤ d) :
    hpInv (f.takeDamage d) := by
  cases hv : f.variant <;> simp only [Fighter.takeDamage, hv]
  · exact takeDamageBase_hp f d h hd
  · exact takeDamageHeavy_hp f d h hd
  · exact takeDamageBase_hp f d h hd

theorem archerSpecial_hp (f : Fighter) (dirs : List (ℚ × ℚ)) :
    (f.archerSpecial dirs).hp = f.hp ∧ (f.archerSpecial dirs).maxHp = f.maxHp := by
  unfold Fighter.archerSpecial
  induction dirs generalizing f with
  | nil => exact ⟨rfl, rfl⟩
  | cons hd tl ih =>
      simpa using ih (f.shootBullet hd.1 hd.2)

theorem useSpecialAbility_hp (f : Fighter) (cx cy dist : ℚ) (dirs : List (ℚ × ℚ)) :
    (f.useSpecialAbility cx cy dist dirs).hp = f.hp ∧
    (f.useSpecialAbility cx cy dist dirs).maxHp = f.maxHp := by
  cases hv : f.variant <;> simp only [Fighter.useSpecialAbility, hv]
  · unfold Fighter.baseSpecial
    split <;> exact ⟨rfl, rfl⟩
  · unfold Fighter.heavySpecial
    split <;> exact ⟨rfl, rfl⟩
  · exact archerSpecial_hp f dirs

theorem passiveAbility_hp (f : Fighter) (cx cy c s : ℚ) (h : hpInv f) :
    hpInv (f.passiveAbility cx cy c s) := by
  cases hv : f.variant <;> simp only [Fighter.passiveAbility, hv]
  · exact basePassive_hp f h
  · obtain ⟨e1, e2⟩ := heavyPassive_hp f cx cy
    exact ⟨e1 ▸ h.1, e2 ▸ e1 ▸ h.2⟩
  · obtain ⟨e1, e2⟩ := archerPassive_hp f c s
    exact ⟨e1 ▸ h.1, e2 ▸ e1 ▸ h.2⟩

theorem applyOp_hp (f : Fighter) (op : Op) (h : hpInv f) (hd : op.nonnegDamage) :
    hpInv (applyOp f op) := by
  cases op with
  | gravity cx cy g dist =>
      obtain ⟨e1, e2⟩ := applyGravity_hp f cx cy g dist
      exact ⟨by rw [applyOp, e1]; exact h.1, by rw [applyOp, e1, e2]; exact h.2⟩
  | damping d => exact h
  | move => exact h
  | passive cx cy c s => exact passiveAbility_hp f cx cy c s h
  | special cx cy dist dirs =>
      obtain ⟨e1, e2⟩ := useSpecialAbility_hp f cx cy dist dirs
      exact ⟨by rw [applyOp, e1]; exact h.1, by rw [applyOp, e1, e2]; exact h.2⟩
  | damage d => exact takeDamage_hp f d h hd
  | gainStr => exact h

/-- C1: over any sequence of simulation operations (integration, passive
and special abilities, damage intake with non-negative damage values,
strength gain), a fighter's hp stays within `[0, maxHp]`. -/
theorem c1_hp_always_clamped (f : Fighter) (ops : List Op) (h : hpInv f)
    (hd : ∀ op ∈ ops, op.nonnegDamage) : hpInv (runOps f ops) := by
  induction ops generalizing f with
  | nil => exact h
  | cons op tl ih =>
      exact ih (applyOp f op) (applyOp_hp f op h (hd op (by simp)))
        (fun o ho => hd o (by simp [ho]))

/-- Witness for C1 at a concrete fighter and operation sequence. -/
theorem c1_hp_always_clamped_witness :
    hpInv (runOps (mkArcherFighter 0 0)
      [.damage 5, .passive 3 4 1 0, .gravity 3 4 (1/2) 5, .gainStr,
       .damage 200, .special 0 0 300 [(1, 0)], .move]) :=
  c1_hp_always_clamped (mkArcherFighter 0 0) _ (by decide) (by decide)
/-- C4: a Heavy fighter at shieldCharge 179, shield not armed, in the
center zone: one passive tick arms the shield and resets the charge;
the next takeDamage with damage 10 removes exactly
`Math.floor(10 * 0.5) = 5` hp, disarms the shield and resets the
charge. -/
theorem c4_heavy_shield_arms_then_halves (f : Fighter) (cx cy : ℚ)
    (hv : f.variant = .heavy) (hc : f.shieldCharge = 179)
    (hs : f.hasShield = false) (hin : f.isInCenterZone cx cy = true)
    (hhp : 5 ≤ f.hp) :
    (f.passiveAbility cx cy 0 0).hasShield = true ∧
    (f.passiveAbility cx cy 0 0).shieldCharge = 0 ∧
    ((f.passiveAbility cx cy 0 0).takeDamage 10).hp = f.hp - 5 ∧
    ((f.passiveAbility cx cy 0 0).takeDamage 10).hasShield = false ∧
    ((f.passiveAbility cx cy 0 0).takeDamage 10).shieldCharge = 0 := by
  obtain ⟨va, x, y, vx, vy, hp, maxHp, stg, rad, db, rot, chg, shld, rt, bl, sa, sc⟩ := f
  subst hv hc hs
  simp only [Fighter.isInCenterZone] at hin
  simp only [Fighter.passiveAbility, Fighter.heavyPassive, Fighter.isInCenterZone,
    Fighter.takeDamage, Fighter.takeDamageHeavy]
  rw [if_pos hin]
  norm_num
  exact hhp

/-- Witness for C4: a fresh Heavy fighter at the arena center with
charge 179. -/
theorem c4_heavy_shield_arms_then_halves_witness :
    (({ mkHeavyFighter 0 0 with shieldCharge := 179 }.passiveAbility 0 0 0 0).hasShield = true) ∧
    ((({ mkHeavyFighter 0 0 with shieldCharge := 179 }.passiveAbility 0 0 0 0).takeDamage 10).hp = 245) := by
  have h := c4_heavy_shield_arms_then_halves
    { mkHeavyFighter 0 0 with shieldCharge := 179 } 0 0
    rfl rfl rfl (by simp [Fighter.isInCenterZone, mkHeavyFighter])
    (by norm_num [mkHeavyFighter])
  refine ⟨h.1, ?_⟩
  rw [h.2.2.1]
  norm_num [mkHeavyFighter]

/-- C5: Base-variant regeneration.  With `2 ≤ maxHp` and `hp ≤ maxHp`:
no healing at or above half health or at zero hp; below half health and
nonzero, once the incremented timer reaches 120 exactly one hp is
restored and the timer resets; before the threshold the timer just
increments; and the result never exceeds maxHp. -/
theorem c5_base_regeneration (f : Fighter) (cx cy c s : ℚ)
    (hv : f.variant = .base) (hmax : 2 ≤ f.maxHp) (hle : f.hp ≤ f.maxHp) :
    ((f.maxHp * (1 / 2) ≤ f.hp ∨ f.hp = 0) →
      (f.passiveAbility cx cy c s).hp = f.hp) ∧
    (f.hp < f.maxHp * (1 / 2) → f.hp ≠ 0 → 120 ≤ f.regenTimer + 1 →
      (f.passiveAbility cx cy c s).hp = f.hp + 1 ∧
      (f.passiveAbility cx cy c s).regenTimer = 0) ∧
    (f.regenTimer + 1 < 120 →
      (f.passiveAbility cx cy c s).hp = f.hp ∧
      (f.passiveAbility cx cy c s).regenTimer = f.regenTimer + 1) ∧
    (f.passiveAbility cx cy c s).hp ≤ f.maxHp := by
  obtain ⟨va, x, y, vx, vy, hp, maxHp, stg, rad, db, rot, chg, shld, rt, bl, sa, sc⟩ := f
  subst hv
  simp only [Fighter.passiveAbility, Fighter.basePassive]
  refine ⟨?_, ?_, ?_, ?_⟩
  · intro hcase
    rw [if_neg]
    rintro ⟨hlt, -, hne⟩
    rcases hcase with hge | hzero
    · exact absurd hge (by linarith)
    · exact hne hzero
  · intro hlt hne htimer
    rw [if_pos ⟨hlt, htimer, hne⟩]
    exact ⟨min_eq_right (by linarith), rfl⟩
  · intro htimer
    rw [if_neg]
    · exact ⟨rfl, rfl⟩
    · rintro ⟨-, ht, -⟩
      exact absurd ht (by linarith)
  · split_ifs with hcond
    · exact min_le_left _ _
    · exact hle

/-- Witness for C5 at a concrete low-health Base fighter. -/
theorem c5_base_regeneration_witness :
    (({ mkBaseFighter 0 0 with hp := 40, regenTimer := 119 }.passiveAbility 0 0 0 0).hp = 41) ∧
    (({ mkBaseFighter 0 0 with hp := 40, regenTimer := 119 }.passiveAbility 0 0 0 0).regenTimer = 0) := by
  have h := c5_base_regeneration
    { mkBaseFighter 0 0 with hp := 40, regenTimer := 119 } 0 0 0 0
    rfl (by norm_num [mkBaseFighter]) (by norm_num [mkBaseFighter])
  have h2 := h.2.1 (by norm_num [mkBaseFighter]) (by norm_num [mkBaseFighter])
    (by norm_num [mkBaseFighter])
  exact ⟨by rw [h2.1]; norm_num [mkBaseFighter], h2.2⟩

/-- C10: takeDamage at zero hp keeps hp at zero for any non-negative
damage, and for a Heavy fighter with an armed shield it still consumes
the shield (armed flag cleared, charge reset). -/
theorem c10_takeDamage_at_zero_hp (f : Fighter) (d : ℚ)
    (h0 : f.hp = 0) (hd : 0 ≤ d) :
    (f.takeDamage d).hp = 0 ∧
    (f.variant = .heavy → f.hasShield = true →
      (f.takeDamage d).hasShield = false ∧ (f.takeDamage d).shieldCharge = 0) := by
  have hfl : (0 : ℚ) ≤ ((⌊d * (1 / 2 : ℚ)⌋ : ℤ) : ℚ) := by
    have h2 : (0 : ℤ) ≤ ⌊d * (1 / 2 : ℚ)⌋ := Int.floor_nonneg.mpr (by linarith)
    exact_mod_cast h2
  constructor
  · cases hv : f.variant <;>
      simp only [Fighter.takeDamage, hv, Fighter.takeDamageBase, Fighter.takeDamageHeavy]
    · simp only [h0]
      exact max_eq_left (by linarith)
    · split_ifs <;> simp only [h0]
      · exact max_eq_left (by linarith)
      · exact max_eq_left (by linarith)
    · simp only [h0]
      exact max_eq_left (by linarith)
  · intro hv hs
    simp [Fighter.takeDamage, hv, Fighter.takeDamageHeavy, hs]

/-- Witness for C10: a knocked-out Heavy fighter with an armed shield
taking 7 damage. -/
theorem c10_takeDamage_at_zero_hp_witness :
    (({ mkHeavyFighter 0 0 with hp := 0, hasShield := true }.takeDamage 7).hp = 0) ∧
    (({ mkHeavyFighter 0 0 with hp := 0, hasShield := true }.takeDamage 7).hasShield = false) := by
  have h := c10_takeDamage_at_zero_hp
    { mkHeavyFighter 0 0 with hp := 0, hasShield := true } 7 rfl (by norm_num)
  exact ⟨h.1, (h.2 rfl rfl).1⟩
/-- C3 counterexample: an Archer with strength 21 and cooldown 0 emits
and the cooldown is reset to `30 - 21 * 1.5 = -1.5`, a negative value —
the source has no clamp. -/
theorem c3_cooldown_negative_counterexample :
    (({ mkArcherFighter 0 0 with strength := 21 }).passiveAbility 0 0 1 0).shootCooldown < 0 := by
  norm_num [Fighter.passiveAbility, Fighter.archerPassive, Fighter.shootBullet,
    Fighter.updateBullets, stepBullet, mkArcherFighter, shootCooldownMax,
    shootRotationSpeed, bulletSpeed]

/-- C3 amended: after a passive emission (cooldown not positive at entry)
the cooldown is reset to exactly `shootCooldownMax − strength × 1.5`,
with no clamping; it is negative whenever `strength > 20`. -/
theorem c3_cooldown_reset_unclamped (f : Fighter) (cx cy c s : ℚ)
    (hv : f.variant = .archer) (hcd : f.shootCooldown ≤ 0) :
    (f.passiveAbility cx cy c s).shootCooldown =
      shootCooldownMax - f.strength * (3 / 2) ∧
    (20 < f.strength → (f.passiveAbility cx cy c s).shootCooldown < 0) := by
  obtain ⟨va, x, y, vx, vy, hp, maxHp, stg, rad, db, rot, chg, shld, rt, bl, sa, sc⟩ := f
  subst hv
  simp only [Fighter.passiveAbility, Fighter.archerPassive, Fighter.shootBullet,
    Fighter.updateBullets]
  rw [if_neg (not_lt.mpr hcd)]
  refine ⟨rfl, fun hstr => ?_⟩
  simp only [shootCooldownMax]
  simp only at hstr
  linarith

/-- Witness for the amended C3 at a concrete archer. -/
theorem c3_cooldown_reset_unclamped_witness :
    (({ mkArcherFighter 0 0 with strength := 21 }).passiveAbility 0 0 1 0).shootCooldown =
      shootCooldownMax - 21 * (3 / 2) := by
  exact (c3_cooldown_reset_unclamped { mkArcherFighter 0 0 with strength := 21 }
    0 0 1 0 rfl (by norm_num [mkArcherFighter])).1

/-- C8: at emission direction (cos, sin) = (3/5, 4/5) and strength 3, the
bullet's x-velocity uses the multiplier `1 + 3·0.24` while the y-velocity
uses `1 + 3·0.25`: no single strength multiplier explains both
components, refuting the single-multiplier claim (the adjacent 0.24/0.25
constants in the source are an apparent slip of the spec's stated
single-multiplier design). -/
theorem c8_no_single_velocity_multiplier :
    (((mkArcherFighter 0 0).shootBullet (3 / 5) (4 / 5)).bullets.map
        (fun b => (b.vx, b.vy)) =
      [((3 / 5) * bulletSpeed * (1 + 3 * (24 / 100)),
        (4 / 5) * bulletSpeed * (1 + 3 * (25 / 100)))]) ∧
    ¬ ∃ m : ℚ,
        (3 / 5 : ℚ) * bulletSpeed * (1 + 3 * (24 / 100)) = 3 / 5 * bulletSpeed * m ∧
        (4 / 5 : ℚ) * bulletSpeed * (1 + 3 * (25 / 100)) = 4 / 5 * bulletSpeed * m := by
  constructor
  · norm_num [Fighter.shootBullet, mkArcherFighter, bulletSpeed]
  · rintro ⟨m, h1, h2⟩
    rw [bulletSpeed] at h1 h2
    have hm1 : m = 1 + 3 * (24 / 100) := by
      field_simp at h1
      linarith
    have hm2 : m = 1 + 3 * (25 / 100) := by
      field_simp at h2
      linarith
    rw [hm1] at hm2
    norm_num at hm2

/-- C2: the damage applied when a bullet strikes is the archer's current
strength at impact (`getBulletDamage`), not the damage carried by the
bullet from emission time.  Scenario: the archer emits at strength 3
(the bullet carries damage 3), gains strength to 4, and the bullet then
strikes; the collision section applies 4 damage. -/
theorem c2_impact_damage_is_current_strength :
    -- the bullet emitted at strength 3 carries damage 3
    (((mkArcherFighter 0 0).shootBullet 1 0).bullets.map (fun b => b.damage) = [3]) ∧
    -- after the archer's strength grows to 4, the collision section of
    -- updatePhysics registers the hit and applies 4 damage, not 3
    (let archer : Fighter :=
      { mkArcherFighter 0 0 with
        strength := 4
        bullets := [{ x := 500, y := 0, vx := 0, vy := 0, damage := 3, active := true }] }
     let target : Fighter := mkBaseFighter 500 0
     let st := contactPhase { f1 := archer, f2 := target, flag := false }
       { squareTest1 := false, squareTest2 := false, dist := 500,
         r1 := 0, r2 := 0, r3 := 0, r4 := 0 }
     st.f2.hp = 100 - 4 ∧ st.flag = true) := by
  constructor
  · norm_num [Fighter.shootBullet, mkArcherFighter]
  · constructor <;>
      norm_num [contactPhase, squareHitsPhase, bulletHitPhase, bodyPhase,
        mkArcherFighter, mkBaseFighter, Fighter.checkBulletCollision,
        bulletHits, bulletRadius, Fighter.getBulletDamage, Fighter.takeDamage,
        Fighter.takeDamageBase, Fighter.takeDamageHeavy]
section MotionLemmas

@[simp] theorem Fighter.takeDamage_x (f : Fighter) (d : ℚ) : (f.takeDamage d).x = f.x := by
  cases hv : f.variant <;>
    simp only [Fighter.takeDamage, hv, Fighter.takeDamageBase, Fighter.takeDamageHeavy] <;>
    split_ifs <;> rfl

@[simp] theorem Fighter.takeDamage_y (f : Fighter) (d : ℚ) : (f.takeDamage d).y = f.y := by
  cases hv : f.variant <;>
    simp only [Fighter.takeDamage, hv, Fighter.takeDamageBase, Fighter.takeDamageHeavy] <;>
    split_ifs <;> rfl

@[simp] theorem Fighter.takeDamage_vx (f : Fighter) (d : ℚ) : (f.takeDamage d).vx = f.vx := by
  cases hv : f.variant <;>
    simp only [Fighter.takeDamage, hv, Fighter.takeDamageBase, Fighter.takeDamageHeavy] <;>
    split_ifs <;> rfl

@[simp] theorem Fighter.takeDamage_vy (f : Fighter) (d : ℚ) : (f.takeDamage d).vy = f.vy := by
  cases hv : f.variant <;>
    simp only [Fighter.takeDamage, hv, Fighter.takeDamageBase, Fighter.takeDamageHeavy] <;>
    split_ifs <;> rfl

@[simp] theorem Fighter.takeDamage_radius (f : Fighter) (d : ℚ) :
    (f.takeDamage d).radius = f.radius := by
  cases hv : f.variant <;>
    simp only [Fighter.takeDamage, hv, Fighter.takeDamageBase, Fighter.takeDamageHeavy] <;>
    split_ifs <;> rfl

@[simp] theorem Fighter.takeDamage_variant (f : Fighter) (d : ℚ) :
    (f.takeDamage d).variant = f.variant := by
  cases hv : f.variant <;>
    simp only [Fighter.takeDamage, hv, Fighter.takeDamageBase, Fighter.takeDamageHeavy] <;>
    split_ifs <;> simp [hv]

@[simp] theorem Fighter.takeDamage_strength (f : Fighter) (d : ℚ) :
    (f.takeDamage d).strength = f.strength := by
  cases hv : f.variant <;>
    simp only [Fighter.takeDamage, hv, Fighter.takeDamageBase, Fighter.takeDamageHeavy] <;>
    split_ifs <;> rfl

@[simp] theorem Fighter.takeDamage_dealsBodyDamage (f : Fighter) (d : ℚ) :
    (f.takeDamage d).dealsBodyDamage = f.dealsBodyDamage := by
  cases hv : f.variant <;>
    simp only [Fighter.takeDamage, hv, Fighter.takeDamageBase, Fighter.takeDamageHeavy] <;>
    split_ifs <;> rfl

@[simp] theorem Fighter.takeDamage_bullets (f : Fighter) (d : ℚ) :
    (f.takeDamage d).bullets = f.bullets := by
  cases hv : f.variant <;>
    simp only [Fighter.takeDamage, hv, Fighter.takeDamageBase, Fighter.takeDamageHeavy] <;>
    split_ifs <;> rfl

@[simp] theorem Fighter.checkBulletCollision_fst_x (f o : Fighter) :
    (f.checkBulletCollision o).1.x = f.x := rfl

@[simp] theorem Fighter.checkBulletCollision_fst_y (f o : Fighter) :
    (f.checkBulletCollision o).1.y = f.y := rfl

@[simp] theorem Fighter.checkBulletCollision_fst_vx (f o : Fighter) :
    (f.checkBulletCollision o).1.vx = f.vx := rfl

@[simp] theorem Fighter.checkBulletCollision_fst_vy (f o : Fighter) :
    (f.checkBulletCollision o).1.vy = f.vy := rfl

@[simp] theorem Fighter.checkBulletCollision_fst_hp (f o : Fighter) :
    (f.checkBulletCollision o).1.hp = f.hp := rfl

@[simp] theorem Fighter.checkBulletCollision_fst_radius (f o : Fighter) :
    (f.checkBulletCollision o).1.radius = f.radius := rfl

@[simp] theorem Fighter.checkBulletCollision_fst_variant (f o : Fighter) :
    (f.checkBulletCollision o).1.variant = f.variant := rfl

@[simp] theorem Fighter.checkBulletCollision_fst_strength (f o : Fighter) :
    (f.checkBulletCollision o).1.strength = f.strength := rfl

@[simp] theorem Fighter.checkBulletCollision_fst_dealsBodyDamage (f o : Fighter) :
    (f.checkBulletCollision o).1.dealsBodyDamage = f.dealsBodyDamage := rfl

theorem Fighter.checkBulletCollision_empty (f o : Fighter) (h : f.bullets = []) :
    (f.checkBulletCollision o).1.bullets = [] ∧ (f.checkBulletCollision o).2 = false := by
  simp [Fighter.checkBulletCollision, h]

@[simp] theorem bulletHitPhase_a_x (a b : Fighter) : (bulletHitPhase a b).1.1.x = a.x := by
  rw [bulletHitPhase]; split_ifs <;> rfl

@[simp] theorem bulletHitPhase_a_y (a b : Fighter) : (bulletHitPhase a b).1.1.y = a.y := by
  rw [bulletHitPhase]; split_ifs <;> rfl

@[simp] theorem bulletHitPhase_a_vx (a b : Fighter) : (bulletHitPhase a b).1.1.vx = a.vx := by
  rw [bulletHitPhase]; split_ifs <;> rfl

@[simp] theorem bulletHitPhase_a_vy (a b : Fighter) : (bulletHitPhase a b).1.1.vy = a.vy := by
  rw [bulletHitPhase]; split_ifs <;> rfl

@[simp] theorem bulletHitPhase_b_x (a b : Fighter) : (bulletHitPhase a b).1.2.x = b.x := by
  rw [bulletHitPhase]; split_ifs <;> simp [apply_ite Fighter.x]

@[simp] theorem bulletHitPhase_b_y (a b : Fighter) : (bulletHitPhase a b).1.2.y = b.y := by
  rw [bulletHitPhase]; split_ifs <;> simp [apply_ite Fighter.y]

@[simp] theorem bulletHitPhase_b_vx (a b : Fighter) : (bulletHitPhase a b).1.2.vx = b.vx := by
  rw [bulletHitPhase]; split_ifs <;> simp [apply_ite Fighter.vx]

@[simp] theorem bulletHitPhase_b_vy (a b : Fighter) : (bulletHitPhase a b).1.2.vy = b.vy := by
  rw [bulletHitPhase]; split_ifs <;> simp [apply_ite Fighter.vy]

@[simp] theorem squareHitsPhase_f1_x (st : ContactState) (inp : ContactInput) :
    (squareHitsPhase st inp).1.1.x = st.f1.x := by
  rw [squareHitsPhase]; dsimp only; split_ifs <;> simp

@[simp] theorem squareHitsPhase_f1_y (st : ContactState) (inp : ContactInput) :
    (squareHitsPhase st inp).1.1.y = st.f1.y := by
  rw [squareHitsPhase]; dsimp only; split_ifs <;> simp

@[simp] theorem squareHitsPhase_f1_vx (st : ContactState) (inp : ContactInput) :
    (squareHitsPhase st inp).1.1.vx = st.f1.vx := by
  rw [squareHitsPhase]; dsimp only; split_ifs <;> simp

@[simp] theorem squareHitsPhase_f1_vy (st : ContactState) (inp : ContactInput) :
    (squareHitsPhase st inp).1.1.vy = st.f1.vy := by
  rw [squareHitsPhase]; dsimp only; split_ifs <;> simp

@[simp] theorem squareHitsPhase_f2_x (st : ContactState) (inp : ContactInput) :
    (squareHitsPhase st inp).1.2.x = st.f2.x := by
  rw [squareHitsPhase]; dsimp only; split_ifs <;> simp

@[simp] theorem squareHitsPhase_f2_y (st : ContactState) (inp : ContactInput) :
    (squareHitsPhase st inp).1.2.y = st.f2.y := by
  rw [squareHitsPhase]; dsimp only; split_ifs <;> simp

@[simp] theorem squareHitsPhase_f2_vx (st : ContactState) (inp : ContactInput) :
    (squareHitsPhase st inp).1.2.vx = st.f2.vx := by
  rw [squareHitsPhase]; dsimp only; split_ifs <;> simp

@[simp] theorem squareHitsPhase_f2_vy (st : ContactState) (inp : ContactInput) :
    (squareHitsPhase st inp).1.2.vy = st.f2.vy := by
  rw [squareHitsPhase]; dsimp only; split_ifs <;> simp

end MotionLemmas

/-- C9: every distance-based unit-vector computation is skipped at zero
distance.  When a fighter sits exactly at the gravity center its
velocity is unchanged; when it sits exactly at a wall's center the wall
response leaves it unchanged; and when the two fighters' centers
coincide (`dist = 0`), the fighter-fighter collision response of the
collision phase leaves both fighters' positions and velocities
unchanged. -/
theorem c9_zero_distance_guards (f : Fighter) (cx cy g : ℚ) (w : Wall)
    (st : ContactState) (inp : ContactInput) :
    (∀ dist : ℚ, 0 ≤ dist → dist ^ 2 = (cx - f.x) ^ 2 + (cy - f.y) ^ 2 →
       f.x = cx → f.y = cy → f.applyGravity cx cy g dist = f) ∧
    (∀ dist : ℚ, 0 ≤ dist → dist ^ 2 = (f.x - w.x) ^ 2 + (f.y - w.y) ^ 2 →
       f.x = w.x → f.y = w.y → checkCollisionWithWall f w dist = f) ∧
    (inp.dist = 0 →
       (contactPhase st inp).f1.x = st.f1.x ∧ (contactPhase st inp).f1.y = st.f1.y ∧
       (contactPhase st inp).f1.vx = st.f1.vx ∧ (contactPhase st inp).f1.vy = st.f1.vy ∧
       (contactPhase st inp).f2.x = st.f2.x ∧ (contactPhase st inp).f2.y = st.f2.y ∧
       (contactPhase st inp).f2.vx = st.f2.vx ∧ (contactPhase st inp).f2.vy = st.f2.vy) := by
  refine ⟨?_, ?_, ?_⟩
  · intro dist _ hsq hx hy
    have hz : dist = 0 := by
      have h0 : dist ^ 2 = 0 := by rw [hsq, hx, hy]; ring
      exact pow_eq_zero_iff (n := 2) (by norm_num) |>.mp h0
    rw [Fighter.applyGravity, if_neg (by rw [hz]; exact lt_irrefl 0)]
  · intro dist _ hsq hx hy
    have hz : dist = 0 := by
      have h0 : dist ^ 2 = 0 := by rw [hsq, hx, hy]; ring
      exact pow_eq_zero_iff (n := 2) (by norm_num) |>.mp h0
    rw [checkCollisionWithWall]
    rw [if_neg]
    rintro ⟨-, hlt⟩
    rw [hz] at hlt
    exact lt_irrefl 0 hlt
  · intro hz
    simp only [contactPhase, hz]
    rw [bodyPhase, if_neg (by rintro ⟨-, hlt⟩; exact lt_irrefl 0 hlt)]
    split_ifs <;> simp

/-- Witness for C9 at concrete states. -/
theorem c9_zero_distance_guards_witness :
    ((mkBaseFighter 3 4).applyGravity 3 4 (1 / 2) 0 = mkBaseFighter 3 4) ∧
    (checkCollisionWithWall (mkBaseFighter 3 4) { x := 3, y := 4, radius := 40 } 0 =
      mkBaseFighter 3 4) ∧
    (contactPhase { f1 := mkBaseFighter 3 4, f2 := mkBaseFighter 3 4, flag := false }
        { squareTest1 := false, squareTest2 := false, dist := 0,
          r1 := 0, r2 := 0, r3 := 0, r4 := 0 }).f1.x = 3 := by
  have h := c9_zero_distance_guards (mkBaseFighter 3 4) 3 4 (1 / 2)
    { x := 3, y := 4, radius := 40 }
    { f1 := mkBaseFighter 3 4, f2 := mkBaseFighter 3 4, flag := false }
    { squareTest1 := false, squareTest2 := false, dist := 0,
      r1 := 0, r2 := 0, r3 := 0, r4 := 0 }
  refine ⟨h.1 0 le_rfl (by norm_num [mkBaseFighter]) rfl rfl,
          h.2.1 0 le_rfl (by norm_num [mkBaseFighter]) rfl rfl, ?_⟩
  rw [(h.2.2 rfl).1]
  norm_num [mkBaseFighter]
/-- C7 counterexample: a fighter exactly at a wall's center overlaps the
wall (squared distance 0 < (30+40)^2) but the resolution leaves it
unchanged — and hence still overlapping — because the source skips the
response when the center distance is zero. -/
theorem c7_wall_zero_distance_counterexample :
    checkCollisionWithWall (mkBaseFighter 0 0) { x := 0, y := 0, radius := 40 } 0 =
      mkBaseFighter 0 0 ∧
    ((mkBaseFighter 0 0).x - 0) ^ 2 + ((mkBaseFighter 0 0).y - 0) ^ 2 <
      ((mkBaseFighter 0 0).radius + 40) ^ 2 := by
  constructor
  · rw [checkCollisionWithWall, if_neg]
    rintro ⟨-, h⟩
    exact lt_irrefl 0 h
  · norm_num [mkBaseFighter]

/-- C7 amended: when the fighter overlaps the wall at a strictly
positive center distance, the same-tick resolution pushes it out along
the wall-to-fighter normal by exactly the overlap, leaving the circles
tangent (not overlapping); the velocity is unchanged when the fighter
moves away from the wall, and when it moves into the wall the normal
component is reduced by the damping factor times itself, leaving
`(1 − WALL_COLLISION_DAMPING)` of it. -/
theorem c7_wall_collision_resolution (f : Fighter) (w : Wall) (dist : ℚ)
    (hd0 : 0 < dist)
    (hsq : dist ^ 2 = (f.x - w.x) ^ 2 + (f.y - w.y) ^ 2)
    (hov : dist < f.radius + w.radius) :
    (checkCollisionWithWall f w dist).x
        = f.x + (f.x - w.x) / dist * (f.radius + w.radius - dist) ∧
    (checkCollisionWithWall f w dist).y
        = f.y + (f.y - w.y) / dist * (f.radius + w.radius - dist) ∧
    ((checkCollisionWithWall f w dist).x - w.x) ^ 2 +
        ((checkCollisionWithWall f w dist).y - w.y) ^ 2
      = (f.radius + w.radius) ^ 2 ∧
    (0 ≤ f.vx * ((f.x - w.x) / dist) + f.vy * ((f.y - w.y) / dist) →
      (checkCollisionWithWall f w dist).vx = f.vx ∧
      (checkCollisionWithWall f w dist).vy = f.vy) ∧
    (f.vx * ((f.x - w.x) / dist) + f.vy * ((f.y - w.y) / dist) < 0 →
      (checkCollisionWithWall f w dist).vx * ((f.x - w.x) / dist) +
          (checkCollisionWithWall f w dist).vy * ((f.y - w.y) / dist)
        = (1 - WALL_COLLISION_DAMPING) *
            (f.vx * ((f.x - w.x) / dist) + f.vy * ((f.y - w.y) / dist))) := by
  have hne : dist ≠ 0 := ne_of_gt hd0
  have hunit : ((f.x - w.x) / dist) ^ 2 + ((f.y - w.y) / dist) ^ 2 = 1 := by
    field_simp
    rw [← hsq]
  rw [checkCollisionWithWall]
  dsimp only
  rw [if_pos ⟨hov, hd0⟩]
  refine ⟨?_, ?_, ?_, ?_, ?_⟩
  · split_ifs <;> rfl
  · split_ifs <;> rfl
  · have hx : ∀ g : Fighter, g.x = f.x + (f.x - w.x) / dist * (f.radius + w.radius - dist) →
        g.x - w.x = (f.x - w.x) * ((f.radius + w.radius) / dist) := by
      intro g hg
      rw [hg]
      field_simp
      ring
    have e1 : (f.x + (f.x - w.x) / dist * (f.radius + w.radius - dist)) - w.x
        = (f.x - w.x) * ((f.radius + w.radius) / dist) := by
      field_simp
      ring
    have e2 : (f.y + (f.y - w.y) / dist * (f.radius + w.radius - dist)) - w.y
        = (f.y - w.y) * ((f.radius + w.radius) / dist) := by
      field_simp
      ring
    have goal2 : ((f.x - w.x) * ((f.radius + w.radius) / dist)) ^ 2 +
        ((f.y - w.y) * ((f.radius + w.radius) / dist)) ^ 2 = (f.radius + w.radius) ^ 2 := by
      have expand : ((f.x - w.x) * ((f.radius + w.radius) / dist)) ^ 2 +
          ((f.y - w.y) * ((f.radius + w.radius) / dist)) ^ 2
        = ((f.x - w.x) ^ 2 + (f.y - w.y) ^ 2) * (f.radius + w.radius) ^ 2 / dist ^ 2 := by
        field_simp
        ring
      rw [expand, ← hsq]
      field_simp
    split_ifs <;> simpa [e1, e2] using goal2
  · intro hdot
    split_ifs with h
    · exact absurd hdot (not_le.mpr h)
    · exact ⟨rfl, rfl⟩
  · intro hdot
    split_ifs with h
    dsimp only
    have expand :
        (f.vx - (f.x - w.x) / dist *
            (f.vx * ((f.x - w.x) / dist) + f.vy * ((f.y - w.y) / dist)) *
            WALL_COLLISION_DAMPING) * ((f.x - w.x) / dist) +
        (f.vy - (f.y - w.y) / dist *
            (f.vx * ((f.x - w.x) / dist) + f.vy * ((f.y - w.y) / dist)) *
            WALL_COLLISION_DAMPING) * ((f.y - w.y) / dist)
      = (f.vx * ((f.x - w.x) / dist) + f.vy * ((f.y - w.y) / dist)) -
          (((f.x - w.x) / dist) ^ 2 + ((f.y - w.y) / dist) ^ 2) *
              ((f.vx * ((f.x - w.x) / dist) + f.vy * ((f.y - w.y) / dist)) *
                WALL_COLLISION_DAMPING) := by
      ring
    rw [expand, hunit]
    ring

/-- Witness for the amended C7: a Base fighter overlapping the top wall
at distance 50 (positions chosen so the square root is exact), moving
into the wall. -/
theorem c7_wall_collision_resolution_witness :
    (checkCollisionWithWall { mkBaseFighter 30 40 with vx := -3, vy := -4 }
        { x := 0, y := 0, radius := 40 } 50).x = 42 ∧
    ((checkCollisionWithWall { mkBaseFighter 30 40 with vx := -3, vy := -4 }
        { x := 0, y := 0, radius := 40 } 50).x - 0) ^ 2 +
      ((checkCollisionWithWall { mkBaseFighter 30 40 with vx := -3, vy := -4 }
        { x := 0, y := 0, radius := 40 } 50).y - 0) ^ 2 = 70 ^ 2 := by
  have h := c7_wall_collision_resolution
    { mkBaseFighter 30 40 with vx := -3, vy := -4 }
    { x := 0, y := 0, radius := 40 } 50
    (by norm_num) (by norm_num [mkBaseFighter]) (by norm_num [mkBaseFighter])
  refine ⟨?_, ?_⟩
  · rw [h.1]
    norm_num [mkBaseFighter]
  · have h3 := h.2.2.1
    norm_num [mkBaseFighter] at h3 ⊢
    try exact h3
    try linarith
section ContactLemmas

@[simp] theorem bulletHitPhase_a_hp (a b : Fighter) : (bulletHitPhase a b).1.1.hp = a.hp := by
  rw [bulletHitPhase]; split_ifs <;> rfl

@[simp] theorem bulletHitPhase_a_radius (a b : Fighter) :
    (bulletHitPhase a b).1.1.radius = a.radius := by
  rw [bulletHitPhase]; split_ifs <;> rfl

@[simp] theorem bulletHitPhase_b_radius (a b : Fighter) :
    (bulletHitPhase a b).1.2.radius = b.radius := by
  rw [bulletHitPhase]; split_ifs <;> simp [apply_ite Fighter.radius]

@[simp] theorem bulletHitPhase_a_variant (a b : Fighter) :
    (bulletHitPhase a b).1.1.variant = a.variant := by
  rw [bulletHitPhase]; split_ifs <;> rfl

@[simp] theorem bulletHitPhase_b_variant (a b : Fighter) :
    (bulletHitPhase a b).1.2.variant = b.variant := by
  rw [bulletHitPhase]; split_ifs <;> simp [apply_ite Fighter.variant]

@[simp] theorem bulletHitPhase_a_strength (a b : Fighter) :
    (bulletHitPhase a b).1.1.strength = a.strength := by
  rw [bulletHitPhase]; split_ifs <;> rfl

@[simp] theorem bulletHitPhase_b_strength (a b : Fighter) :
    (bulletHitPhase a b).1.2.strength = b.strength := by
  rw [bulletHitPhase]; split_ifs <;> simp [apply_ite Fighter.strength]

@[simp] theorem squareHitsPhase_f1_radius (st : ContactState) (inp : ContactInput) :
    (squareHitsPhase st inp).1.1.radius = st.f1.radius := by
  rw [squareHitsPhase]; dsimp only; split_ifs <;> simp

@[simp] theorem squareHitsPhase_f2_radius (st : ContactState) (inp : ContactInput) :
    (squareHitsPhase st inp).1.2.radius = st.f2.radius := by
  rw [squareHitsPhase]; dsimp only; split_ifs <;> simp

@[simp] theorem squareHitsPhase_f1_variant (st : ContactState) (inp : ContactInput) :
    (squareHitsPhase st inp).1.1.variant = st.f1.variant := by
  rw [squareHitsPhase]; dsimp only; split_ifs <;> simp

@[simp] theorem squareHitsPhase_f2_variant (st : ContactState) (inp : ContactInput) :
    (squareHitsPhase st inp).1.2.variant = st.f2.variant := by
  rw [squareHitsPhase]; dsimp only; split_ifs <;> simp

@[simp] theorem squareHitsPhase_f1_bullets (st : ContactState) (inp : ContactInput) :
    (squareHitsPhase st inp).1.1.bullets = st.f1.bullets := by
  rw [squareHitsPhase]; dsimp only; split_ifs <;> simp

@[simp] theorem squareHitsPhase_f2_bullets (st : ContactState) (inp : ContactInput) :
    (squareHitsPhase st inp).1.2.bullets = st.f2.bullets := by
  rw [squareHitsPhase]; dsimp only; split_ifs <;> simp

/-- With no bullets in flight the collision check returns the archer
itself and no hit. -/
theorem checkBulletCollision_eq_self (a b : Fighter) (hb : a.bullets = []) :
    a.checkBulletCollision b = (a, false) := by
  unfold Fighter.checkBulletCollision
  simp only [hb, List.map_nil, List.any_nil]
  rw [← hb]

/-- With no bullets in flight the projectile block is the identity. -/
theorem bulletHitPhase_eq_of_empty (a b : Fighter) (hb : a.bullets = []) :
    bulletHitPhase a b = ((a, b), false) := by
  rw [bulletHitPhase]
  split_ifs with h
  · rw [checkBulletCollision_eq_self a b hb]
    rfl
  · rfl

/-- With the contact flag set, the melee-hazard block is the identity
and reports no square hit. -/
theorem squareHitsPhase_eq_of_flag (st : ContactState) (inp : ContactInput)
    (hflag : st.flag = true) :
    squareHitsPhase st inp = ((st.f1, st.f2), false) := by
  rw [squareHitsPhase]
  simp [hflag]

/-- The body block's resulting flag: true on overlap at positive
distance, otherwise the disjunction of the square and bullet hits. -/
theorem bodyPhase_flag (f1 f2 : Fighter) (flag sq bh : Bool)
    (dist minDist r1 r2 r3 r4 : ℚ) :
    (bodyPhase f1 f2 flag sq bh dist minDist r1 r2 r3 r4).flag
      = if dist < minDist ∧ 0 < dist then true else (sq || bh) := by
  rw [bodyPhase]
  by_cases hcond : dist < minDist ∧ 0 < dist
  · rw [if_pos hcond, if_pos hcond]
  · rw [if_neg hcond, if_neg hcond]
    by_cases hh : (sq || bh) = true
    · rw [if_pos hh, hh]
    · rw [if_neg hh]
      simp only [Bool.not_eq_true, Bool.or_eq_false_iff] at hh
      simp [hh.1, hh.2]

/-- The body block never touches radii, bullet lists, variants or
strength, and with the flag already set it never touches hp. -/
theorem bodyPhase_preserve (f1 f2 : Fighter) (flag sq bh : Bool)
    (dist minDist r1 r2 r3 r4 : ℚ) :
    (bodyPhase f1 f2 flag sq bh dist minDist r1 r2 r3 r4).f1.radius = f1.radius ∧
    (bodyPhase f1 f2 flag sq bh dist minDist r1 r2 r3 r4).f2.radius = f2.radius ∧
    (bodyPhase f1 f2 flag sq bh dist minDist r1 r2 r3 r4).f1.bullets = f1.bullets ∧
    (bodyPhase f1 f2 flag sq bh dist minDist r1 r2 r3 r4).f2.bullets = f2.bullets ∧
    (flag = true →
      (bodyPhase f1 f2 flag sq bh dist minDist r1 r2 r3 r4).f1.hp = f1.hp ∧
      (bodyPhase f1 f2 flag sq bh dist minDist r1 r2 r3 r4).f2.hp = f2.hp) := by
  rw [bodyPhase]
  by_cases hcond : dist < minDist ∧ 0 < dist
  · rw [if_pos hcond]
    dsimp only
    refine ⟨?_, ?_, ?_, ?_, fun hf => ?_⟩ <;>
      simp_all [apply_ite Fighter.radius, apply_ite Fighter.bullets, apply_ite Fighter.hp]
  · rw [if_neg hcond]
    split_ifs <;> exact ⟨rfl, rfl, rfl, rfl, fun hf => ⟨rfl, rfl⟩⟩

end ContactLemmas
/-- With both square tests false the melee-hazard block is the identity
and reports no square hit. -/
theorem squareHitsPhase_eq_of_tests (st : ContactState) (inp : ContactInput)
    (ht1 : inp.squareTest1 = false) (ht2 : inp.squareTest2 = false) :
    squareHitsPhase st inp = ((st.f1, st.f2), false) := by
  rw [squareHitsPhase]
  simp [ht1, ht2]

/-- The square-hit bit of the melee-hazard block, in terms of the
incoming state. -/
theorem squareHitsPhase_snd (st : ContactState) (inp : ContactInput) :
    (squareHitsPhase st inp).2
      = ((st.f1.variant = Variant.heavy && inp.squareTest1 && !st.flag) ||
         (st.f2.variant = Variant.heavy && inp.squareTest2 && !st.flag)) := by
  rw [squareHitsPhase]
  try dsimp only
  simp [apply_ite Fighter.variant]

/-- With the flag set and no bullets in flight, the collision phase is
exactly the body block on the unchanged fighters with no hits. -/
theorem contactPhase_decomp (st : ContactState) (inp : ContactInput)
    (hflag : st.flag = true) (hb1 : st.f1.bullets = []) (hb2 : st.f2.bullets = []) :
    contactPhase st inp
      = bodyPhase st.f1 st.f2 st.flag false (false || false) inp.dist
          (st.f1.radius + st.f2.radius) inp.r1 inp.r2 inp.r3 inp.r4 := by
  rw [contactPhase]
  try dsimp only
  rw [squareHitsPhase_eq_of_flag st inp hflag]
  try dsimp only
  rw [bulletHitPhase_eq_of_empty st.f1 st.f2 hb1]
  try dsimp only
  rw [bulletHitPhase_eq_of_empty st.f2 st.f1 hb2]

/-- One quiet overlapping collision phase: flag already set, no bullets,
overlap at positive distance — the flag stays set, hp and bullet lists
and radii are untouched. -/
theorem contactPhase_quiet (st : ContactState) (inp : ContactInput)
    (hflag : st.flag = true) (hb1 : st.f1.bullets = []) (hb2 : st.f2.bullets = [])
    (hd : 0 < inp.dist) (hov : inp.dist < st.f1.radius + st.f2.radius) :
    (contactPhase st inp).flag = true ∧
    (contactPhase st inp).f1.hp = st.f1.hp ∧
    (contactPhase st inp).f2.hp = st.f2.hp ∧
    (contactPhase st inp).f1.bullets = [] ∧
    (contactPhase st inp).f2.bullets = [] ∧
    (contactPhase st inp).f1.radius = st.f1.radius ∧
    (contactPhase st inp).f2.radius = st.f2.radius := by
  rw [contactPhase_decomp st inp hflag hb1 hb2]
  obtain ⟨hr1, hr2, hbb1, hbb2, hhp⟩ := bodyPhase_preserve st.f1 st.f2 st.flag
    false (false || false) inp.dist (st.f1.radius + st.f2.radius)
    inp.r1 inp.r2 inp.r3 inp.r4
  obtain ⟨hhp1, hhp2⟩ := hhp hflag
  refine ⟨?_, hhp1, hhp2, ?_, ?_, hr1, hr2⟩
  · rw [bodyPhase_flag, if_pos ⟨hov, hd⟩]
  · rw [hbb1, hb1]
  · rw [hbb2, hb2]

/-- A run of quiet overlapping collision phases keeps the flag set and
never applies body damage. -/
theorem contactRun_quiet (inps : List ContactInput) (st : ContactState)
    (hflag : st.flag = true) (hb1 : st.f1.bullets = []) (hb2 : st.f2.bullets = [])
    (hall : ∀ inp ∈ inps, 0 < inp.dist ∧ inp.dist < st.f1.radius + st.f2.radius) :
    (contactRun st inps).flag = true ∧
    (contactRun st inps).f1.hp = st.f1.hp ∧
    (contactRun st inps).f2.hp = st.f2.hp := by
  induction inps generalizing st with
  | nil => exact ⟨hflag, rfl, rfl⟩
  | cons i tl ih =>
      obtain ⟨hf, h1, h2, hbb1, hbb2, hr1, hr2⟩ :=
        contactPhase_quiet st i hflag hb1 hb2
          (hall i (List.mem_cons_self i tl)).1 (hall i (List.mem_cons_self i tl)).2
      have hstep := ih (contactPhase st i) hf hbb1 hbb2
        (fun inp hm => by
          rw [hr1, hr2]
          exact hall inp (List.mem_cons_of_mem i hm))
      exact ⟨hstep.1, hstep.2.1.trans h1, hstep.2.2.trans h2⟩

/-- First contact with no hazards in play: body damage is applied once
to each fighter (both deal body damage) and the flag is set. -/
theorem contactPhase_first (st : ContactState) (inp : ContactInput)
    (hflag : st.flag = false) (ht1 : inp.squareTest1 = false)
    (ht2 : inp.squareTest2 = false) (hb1 : st.f1.bullets = [])
    (hb2 : st.f2.bullets = []) (hd : 0 < inp.dist)
    (hov : inp.dist < st.f1.radius + st.f2.radius)
    (hdb1 : st.f1.dealsBodyDamage = true) (hdb2 : st.f2.dealsBodyDamage = true) :
    (contactPhase st inp).f1.hp = (st.f1.takeDamage st.f2.strength).hp ∧
    (contactPhase st inp).f2.hp = (st.f2.takeDamage st.f1.strength).hp ∧
    (contactPhase st inp).flag = true := by
  rw [contactPhase]
  try dsimp only
  rw [squareHitsPhase_eq_of_tests st inp ht1 ht2]
  try dsimp only
  rw [bulletHitPhase_eq_of_empty st.f1 st.f2 hb1]
  try dsimp only
  rw [bulletHitPhase_eq_of_empty st.f2 st.f1 hb2]
  try dsimp only
  rw [bodyPhase, if_pos ⟨hov, hd⟩]
  simp [hflag, hdb1, hdb2]

/-- The flag after a collision phase with no bullets in flight is false
exactly when the circles do not overlap at positive distance and no
square hit fired. -/
theorem contactPhase_flag_char (st : ContactState) (inp : ContactInput)
    (hb1 : st.f1.bullets = []) (hb2 : st.f2.bullets = []) :
    (contactPhase st inp).flag = false ↔
      ¬(inp.dist < st.f1.radius + st.f2.radius ∧ 0 < inp.dist) ∧
      (st.f1.variant = Variant.heavy && inp.squareTest1 && !st.flag) = false ∧
      (st.f2.variant = Variant.heavy && inp.squareTest2 && !st.flag) = false := by
  rw [contactPhase]
  try dsimp only
  have e1 : (squareHitsPhase st inp).1.1.bullets = [] := by
    rw [squareHitsPhase_f1_bullets]; exact hb1
  rw [bulletHitPhase_eq_of_empty _ _ e1]
  try dsimp only
  have e2 : (squareHitsPhase st inp).1.2.bullets = [] := by
    rw [squareHitsPhase_f2_bullets]; exact hb2
  rw [bulletHitPhase_eq_of_empty _ _ e2]
  try dsimp only
  rw [bodyPhase_flag, squareHitsPhase_snd]
  by_cases hc : inp.dist < st.f1.radius + st.f2.radius ∧ 0 < inp.dist
  · simp [hc]
  · simp [hc, Bool.or_eq_false_iff]
/-- C6 counterexample: with the contact flag set, no hazard or
projectile hits, and the two fighters' centers coinciding (`dist = 0`,
overlapping since 0 is below the radius sum 60), the collision phase
resets the flag — refuting the claim that the flag resets only at
distance ≥ the sum of the radii. -/
theorem c6_flag_reset_counterexample :
    (contactPhase
        { f1 := mkBaseFighter 100 100, f2 := mkBaseFighter 100 100, flag := true }
        { squareTest1 := false, squareTest2 := false, dist := 0,
          r1 := 0, r2 := 0, r3 := 0, r4 := 0 }).flag = false ∧
    (0 : ℚ) < (mkBaseFighter 100 100).radius + (mkBaseFighter 100 100).radius := by
  constructor
  · rw [contactPhase_flag_char _ _ rfl rfl]
    refine ⟨?_, ?_, ?_⟩
    · rintro ⟨-, h⟩
      exact lt_irrefl 0 h
    · simp [mkBaseFighter]
    · simp [mkBaseFighter]
  · norm_num [mkBaseFighter]

/-- C6 (amended): body-to-body damage is edge-triggered.  (1) On first
contact (flag clear, no hazard or projectile hits, overlap at positive
distance) each fighter with `dealsBodyDamage` takes the opponent's
strength exactly once and the flag is set.  (2) While the flag is set,
any run of consecutive collision phases with the circles overlapping at
strictly positive center distance applies no damage and keeps the flag
set.  (3) With no projectiles in flight, the flag resets exactly on a
phase where the center distance is ≥ the sum of the radii or exactly
zero, and no melee-hazard hit fired. -/
theorem c6_body_damage_edge_triggered (st : ContactState) (inp : ContactInput)
    (inps : List ContactInput) :
    (st.flag = false → inp.squareTest1 = false → inp.squareTest2 = false →
     st.f1.bullets = [] → st.f2.bullets = [] → 0 < inp.dist →
     inp.dist < st.f1.radius + st.f2.radius →
     st.f1.dealsBodyDamage = true → st.f2.dealsBodyDamage = true →
      (contactPhase st inp).f1.hp = (st.f1.takeDamage st.f2.strength).hp ∧
      (contactPhase st inp).f2.hp = (st.f2.takeDamage st.f1.strength).hp ∧
      (contactPhase st inp).flag = true) ∧
    (st.flag = true → st.f1.bullets = [] → st.f2.bullets = [] →
     (∀ i ∈ inps, 0 < i.dist ∧ i.dist < st.f1.radius + st.f2.radius) →
      (contactRun st inps).flag = true ∧
      (contactRun st inps).f1.hp = st.f1.hp ∧
      (contactRun st inps).f2.hp = st.f2.hp) ∧
    (st.f1.bullets = [] → st.f2.bullets = [] → 0 ≤ inp.dist →
      ((contactPhase st inp).flag = false ↔
        (st.f1.radius + st.f2.radius ≤ inp.dist ∨ inp.dist = 0) ∧
        (st.f1.variant = Variant.heavy && inp.squareTest1 && !st.flag) = false ∧
        (st.f2.variant = Variant.heavy && inp.squareTest2 && !st.flag) = false)) := by
  refine ⟨?_, ?_, ?_⟩
  · intro hflag ht1 ht2 hb1 hb2 hd hov hdb1 hdb2
    obtain ⟨h1, h2, h3⟩ := contactPhase_first st inp hflag ht1 ht2 hb1 hb2 hd hov hdb1 hdb2
    exact ⟨h1, h2, h3⟩
  · intro hflag hb1 hb2 hall
    exact contactRun_quiet inps st hflag hb1 hb2 hall
  · intro hb1 hb2 hge
    rw [contactPhase_flag_char st inp hb1 hb2]
    have hiff : ¬(inp.dist < st.f1.radius + st.f2.radius ∧ 0 < inp.dist) ↔
        (st.f1.radius + st.f2.radius ≤ inp.dist ∨ inp.dist = 0) := by
      rw [not_and, not_lt]
      constructor
      · intro h
        rcases le_or_lt (st.f1.radius + st.f2.radius) inp.dist with h1 | h1
        · exact Or.inl h1
        · exact Or.inr (le_antisymm (h h1) hge)
      · rintro (h1 | h1) h2
        · exact absurd h2 (not_lt.mpr h1)
        · exact le_of_eq h1
    rw [hiff]

/-- Witness for the amended C6 at concrete states: first contact of two
Base fighters 40 apart deals 1 damage each way and sets the flag; a
subsequent overlapping phase with the flag set deals nothing; a phase at
distance 100 (≥ 60) resets the flag. -/
theorem c6_body_damage_edge_triggered_witness :
    ((contactPhase
        { f1 := mkBaseFighter 0 0, f2 := mkBaseFighter 40 0, flag := false }
        { squareTest1 := false, squareTest2 := false, dist := 40,
          r1 := 0, r2 := 0, r3 := 0, r4 := 0 }).f2.hp = 99 ∧
     (contactPhase
        { f1 := mkBaseFighter 0 0, f2 := mkBaseFighter 40 0, flag := false }
        { squareTest1 := false, squareTest2 := false, dist := 40,
          r1 := 0, r2 := 0, r3 := 0, r4 := 0 }).flag = true) ∧
    ((contactRun
        { f1 := mkBaseFighter 0 0, f2 := mkBaseFighter 40 0, flag := true }
        [{ squareTest1 := false, squareTest2 := false, dist := 40,
           r1 := 0, r2 := 0, r3 := 0, r4 := 0 }]).f2.hp = 100 ∧
     (contactRun
        { f1 := mkBaseFighter 0 0, f2 := mkBaseFighter 40 0, flag := true }
        [{ squareTest1 := false, squareTest2 := false, dist := 40,
           r1 := 0, r2 := 0, r3 := 0, r4 := 0 }]).flag = true) ∧
    (contactPhase
        { f1 := mkBaseFighter 0 0, f2 := mkBaseFighter 100 0, flag := true }
        { squareTest1 := false, squareTest2 := false, dist := 100,
          r1 := 0, r2 := 0, r3 := 0, r4 := 0 }).flag = false := by
  refine ⟨?_, ?_, ?_⟩
  · have h := (c6_body_damage_edge_triggered
        { f1 := mkBaseFighter 0 0, f2 := mkBaseFighter 40 0, flag := false }
        { squareTest1 := false, squareTest2 := false, dist := 40,
          r1 := 0, r2 := 0, r3 := 0, r4 := 0 } []).1
        rfl rfl rfl rfl rfl (by norm_num) (by norm_num [mkBaseFighter]) rfl rfl
    refine ⟨?_, h.2.2⟩
    rw [h.2.1]
    norm_num [Fighter.takeDamage, Fighter.takeDamageBase, mkBaseFighter]
  · have h := (c6_body_damage_edge_triggered
        { f1 := mkBaseFighter 0 0, f2 := mkBaseFighter 40 0, flag := true }
        { squareTest1 := false, squareTest2 := false, dist := 40,
          r1 := 0, r2 := 0, r3 := 0, r4 := 0 }
        [{ squareTest1 := false, squareTest2 := false, dist := 40,
           r1 := 0, r2 := 0, r3 := 0, r4 := 0 }]).2.1
        rfl rfl rfl
        (by
          intro i hi
          simp only [List.mem_singleton] at hi
          subst hi
          constructor
          · norm_num
          · norm_num [mkBaseFighter])
    refine ⟨?_, h.1⟩
    rw [h.2.2]
    norm_num [mkBaseFighter]
  · have h := (c6_body_damage_edge_triggered
        { f1 := mkBaseFighter 0 0, f2 := mkBaseFighter 100 0, flag := true }
        { squareTest1 := false, squareTest2 := false, dist := 100,
          r1 := 0, r2 := 0, r3 := 0, r4 := 0 } []).2.2
        rfl rfl (by norm_num)
    rw [h]
    refine ⟨Or.inl (by norm_num [mkBaseFighter]), ?_, ?_⟩
    · simp [mkBaseFighter]
    · simp [mkBaseFighter]
